import Mathlib

/-!
Verification development for the `keymap-drawer` command-line entry point
(`keymap_drawer/__main__.py`) and the rendering core it invokes.

The entry point (`draw`) is embedded faithfully from the source: YAML/JSON
data is modelled by the `JVal` type (dictionaries are association lists in
insertion order, as Python dicts preserve insertion order), command-line
arguments by `Args`, and the network / file-system collaborators by an
explicit `Env` record of total functions.  Python's truthiness on optional
strings (`None` and `""` are falsy) is modelled by `truthy` and `pyOr`.

The rendering core (`KeymapDrawer` with its layout resolver and SVG
renderer) is not part of the sources under verification; those components
are modelled from the specification, and each such definition carries a
doc comment starting with "Modelled from the spec:".

Coordinates are exact unnormalized fractions (`Frac`), a pair of integers
interpreted as num/den.  All operations are elementary integer arithmetic,
so every definition evaluates inside the kernel.
-/

namespace KeymapDrawer

/-- A YAML/JSON value: strings, integers, null, arrays and objects.
Objects are association lists in insertion order (Python dicts preserve
insertion order). -/
inductive JVal where
  | str : String → JVal
  | num : Int → JVal
  | null : JVal
  | arr : List JVal → JVal
  | obj : List (String × JVal) → JVal

/-- A Python dictionary with string keys. -/
abbrev Dict := List (String × JVal)

/-- Dictionary lookup (`d.get(k)` / `d[k]`); keys are unique so the first
match is the binding. -/
def dictGet? (d : Dict) (k : String) : Option JVal :=
  match d with
  | [] => none
  | (k₀, v) :: rest => if k₀ = k then some v else dictGet? rest k

/-- Dictionary lookup with a default (`d.get(k, dflt)`). -/
def dictGetD (d : Dict) (k : String) (dflt : JVal) : JVal :=
  (dictGet? d k).getD dflt

/-- Key membership (`k in d`). -/
def dictHas (d : Dict) (k : String) : Bool :=
  (dictGet? d k).isSome

/-- Set a key: replace the binding in place if the key exists, otherwise
append at the end — Python dict assignment semantics. -/
def dictSet (d : Dict) (k : String) (v : JVal) : Dict :=
  match d with
  | [] => [(k, v)]
  | (k₀, v₀) :: rest => if k₀ = k then (k₀, v) :: rest else (k₀, v₀) :: dictSet rest k v

/-- Splat merge: `{..base, **extra}` — insert each binding of `extra` into
`base` in order. -/
def dictSplat (base : Dict) (extra : Dict) : Dict :=
  extra.foldl (fun d kv => dictSet d kv.1 kv.2) base

/-- Extract a string value. -/
def asStr? : Option JVal → Option String
  | some (JVal.str s) => some s
  | _ => none

/-- Python truthiness of an optional string: `None` and `""` are falsy. -/
def truthy : Option String → Bool
  | none => false
  | some s => decide (s ≠ "")

/-- Python `a or b` on optional strings: `b` whenever `a` is falsy. -/
def pyOr (a b : Option String) : Option String :=
  if truthy a then a else b

/-- An exact unnormalized fraction num/den used for geometry coordinates.
No gcd normalization is performed, so all operations are kernel-evaluable
integer arithmetic; theorems only ever compare fractions produced by the
same computation, never arithmetically-equal distinct representations. -/
structure Frac where
  num : Int
  den : Int
deriving DecidableEq, Repr

/-- Embed an integer. -/
def Frac.ofInt (i : Int) : Frac := ⟨i, 1⟩

instance : OfNat Frac n := ⟨Frac.ofInt n⟩

/-- Fraction addition (no normalization). -/
def Frac.add (a b : Frac) : Frac := ⟨a.num * b.den + b.num * a.den, a.den * b.den⟩

/-- Fraction subtraction (no normalization). -/
def Frac.sub (a b : Frac) : Frac := ⟨a.num * b.den - b.num * a.den, a.den * b.den⟩

/-- Multiply by a natural number scalar. -/
def Frac.scale (n : Nat) (a : Frac) : Frac := ⟨a.num * n, a.den⟩

/-- Divide by a natural number scalar. -/
def Frac.divNat (a : Frac) (n : Nat) : Frac := ⟨a.num, a.den * n⟩

/-- Halve a fraction. -/
def Frac.half (a : Frac) : Frac := ⟨a.num, a.den * 2⟩

/-- Quarter of a fraction. -/
def Frac.quarter (a : Frac) : Frac := ⟨a.num, a.den * 4⟩

/-- The command-line arguments of the `draw` subcommand that the `draw`
function reads: `--qmk-info-json`, `--qmk-keyboard`, `--qmk-layout`.
`none` models an absent option (argparse default `None`). -/
structure Args where
  qmk_info_json : Option String
  qmk_keyboard : Option String
  qmk_layout : Option String
deriving DecidableEq, Repr

/-- The external collaborators of `draw`, as total functions: `remote kb`
is the parsed value of `json.load(urlopen(...))["keyboards"][kb]` for the
keyboard named `kb`, and `localFile p` is the parsed content
`json.load(open(p))` of the info file at path `p`. -/
structure Env where
  remote : String → Dict
  localFile : String → Dict

/-- `yaml_data.get("layout", {})` given the raw value of the "layout" key:
the object's bindings, or empty when the key is absent.  (A present
non-object value would fault in Python on attribute access; it is treated
as empty here and the faulting paths are modelled in `resolveDescriptor`.) -/
def layoutObj : Option JVal → Dict
  | some (JVal.obj d) => d
  | _ => []

/-- `args.qmk_keyboard or yaml_data.get("layout", {}).get("qmk_keyboard")`,
with Python truthiness. -/
def effQmkKeyboard (a : Args) (lf : Option JVal) : Option String :=
  pyOr a.qmk_keyboard (asStr? (dictGet? (layoutObj lf) "qmk_keyboard"))

/-- `args.qmk_layout or yaml_data.get("layout", {}).get("qmk_layout")`,
with Python truthiness. -/
def effQmkLayout (a : Args) (lf : Option JVal) : Option String :=
  pyOr a.qmk_layout (asStr? (dictGet? (layoutObj lf) "qmk_layout"))

/-- Which physical-layout information source `draw` consults. -/
inductive InfoSource where
  | remote (name : String)
  | localFile (path : String)
  | noneUsed
deriving DecidableEq, Repr

/-- The information source selected by the branch structure of `draw`:
a truthy effective keyboard name is fetched remotely; otherwise a truthy
`--qmk-info-json` path is read locally; otherwise no info file is used. -/
def infoSource (a : Args) (lf : Option JVal) : InfoSource :=
  if truthy (effQmkKeyboard a lf) then InfoSource.remote ((effQmkKeyboard a lf).getD "")
  else if truthy a.qmk_info_json then InfoSource.localFile ((a.qmk_info_json).getD "")
  else InfoSource.noneUsed

/-- The info dictionary `draw` loads: remote when the effective keyboard
name is truthy, else the local info file. -/
def usedInfo (env : Env) (a : Args) (lf : Option JVal) : Dict :=
  if truthy (effQmkKeyboard a lf) then env.remote ((effQmkKeyboard a lf).getD "")
  else env.localFile ((a.qmk_info_json).getD "")

/-- The errors a `draw` invocation can surface.  `assertionError` is a
failed Python `assert` with its message; `keyError`, `typeError` and
`stopIteration` are the corresponding Python faults on malformed data; the
`invalid*` constructors are the error taxonomy of the rendering core. -/
inductive DrawError where
  | assertionError (msg : String)
  | keyError (key : String)
  | typeError (what : String)
  | stopIteration
  | invalidLayoutError
  | invalidComboError
  | invalidLayerError
deriving DecidableEq, Repr

/-- Message of the `assert "layers" in yaml_data` statement. -/
def layersMsg : String :=
  "Keymap needs to be specified via the \"layers\" field in layout_yaml"

/-- Message of the `assert "layout" in yaml_data` statement. -/
def layoutMsg : String :=
  "A physical layout needs to be specified either via --qmk-keyboard/--qmk-layout, or in a \"layout\" field in layout_yaml using \"ortho\" parameters"

/-- Modelled from the spec: one physical key of the resolved geometry —
center x/y coordinate, width, height and rotation angle in degrees
(KeymapDrawer's physical-layout module is not among the sources). -/
structure KeyGeometry where
  x : Frac
  y : Frac
  w : Frac
  h : Frac
  rot : Frac
deriving DecidableEq, Repr

/-- Modelled from the spec: the semantic content of one key on one layer —
a primary label, optional secondary corner labels, an optional style tag. -/
structure KeyLabelSpec where
  primary : String
  secondary : List String
  style : Option String
deriving DecidableEq, Repr

/-- The blank placeholder label used to pad short layers. -/
def blankLabel : KeyLabelSpec := ⟨"", [], none⟩

/-- Modelled from the spec: a named ordered sequence of key-label specs,
aligned positionally with the resolved key geometries. -/
structure LayerSpec where
  name : String
  keys : List KeyLabelSpec
deriving DecidableEq, Repr

/-- Modelled from the spec: a chord — key indices into the resolved
geometry sequence, a label, an optional target layer (absent means every
layer) and an optional explicit position override. -/
structure ComboSpec where
  keys : List Int
  label : String
  targetLayer : Option String
  position : Option (Frac × Frac)
deriving DecidableEq, Repr

/-- Modelled from the spec: the parameters of a uniform "ortho" grid. -/
structure OrthoParams where
  rows : Nat
  cols : Nat
  pitch_x : Frac
  pitch_y : Frac
  gap : Frac
  stagger : List Frac
  split_gap : Option Frac
deriving DecidableEq, Repr

/-- Modelled from the spec: one primitive element of the vector document. -/
inductive SvgElem where
  | rect (x y w h rot : Frac)
  | text (x y : Frac) (s : String)
  | line (x1 y1 x2 y2 : Frac)
  | comboMark (x y : Frac) (label : String)
deriving DecidableEq, Repr

/-- Modelled from the spec: the grouped sub-drawing of one layer. -/
structure LayerGroup where
  name : String
  elems : List SvgElem
deriving DecidableEq, Repr

/-- Modelled from the spec: the complete vector-graphics document. -/
structure SvgDoc where
  width : Frac
  height : Frac
  groups : List LayerGroup
deriving DecidableEq, Repr

/-- Modelled from the spec: the geometry of the key at row `r`, column `c`
of an ortho grid — center `(c * pitch_x + stagger r + split shift,
r * pitch_y)`, size pitch minus gap, no rotation. -/
def orthoKey (p : OrthoParams) (r c : Nat) : KeyGeometry :=
  { x := (Frac.scale c p.pitch_x).add ((p.stagger.getD r 0).add
      (match p.split_gap with
       | some g => if p.cols / 2 ≤ c then g else 0
       | none => 0)),
    y := Frac.scale r p.pitch_y,
    w := p.pitch_x.sub p.gap,
    h := p.pitch_y.sub p.gap,
    rot := 0 }

/-- Modelled from the spec: the row-major key sequence of an ortho grid —
all of row 0 left to right, then row 1, and so on. -/
def orthoKeys (p : OrthoParams) : List KeyGeometry :=
  (List.range p.rows).flatMap fun r => (List.range p.cols).map (orthoKey p r)

/-- Modelled from the spec: resolve an ortho descriptor into key
geometries; fails with `InvalidLayoutError` when rows or cols are
non-positive. -/
def resolveOrtho (p : OrthoParams) : Except DrawError (List KeyGeometry) :=
  if p.rows = 0 ∨ p.cols = 0 then Except.error DrawError.invalidLayoutError
  else Except.ok (orthoKeys p)

/-- Sequence an error-producing map over a list, stopping at the first
error (explicit recursion so proofs can unfold it). -/
def exceptMap {α β : Type} (f : α → Except DrawError β) : List α → Except DrawError (List β)
  | [] => Except.ok []
  | a :: as =>
    match f a with
    | Except.error e => Except.error e
    | Except.ok b =>
      match exceptMap f as with
      | Except.error e => Except.error e
      | Except.ok bs => Except.ok (b :: bs)

/-- Whether a combo key index is out of range for `n` resolved keys:
negative, or at least `n`. -/
def badIdx (n : Nat) (i : Int) : Bool :=
  decide (i < 0) || decide ((n : Int) ≤ i)

/-- Modelled from the spec: validate one combo against the resolved key
count — a combo with fewer than two keys is a malformed key set, and every
referenced index must be in range; both faults raise `InvalidComboError`. -/
def validateCombo (n : Nat) (c : ComboSpec) : Except DrawError Unit :=
  if c.keys.length < 2 then Except.error DrawError.invalidComboError
  else if c.keys.any (badIdx n) then Except.error DrawError.invalidComboError
  else Except.ok ()

/-- Validate every combo, stopping at the first invalid one. -/
def validateCombos (n : Nat) : List ComboSpec → Except DrawError Unit
  | [] => Except.ok ()
  | c :: cs =>
    match validateCombo n c with
    | Except.error e => Except.error e
    | Except.ok _ => validateCombos n cs

/-- Center point of a key geometry. -/
def keyCenter (g : KeyGeometry) : Frac × Frac := (g.x, g.y)

/-- Sum a list of points componentwise. -/
def sumPoints : List (Frac × Frac) → Frac × Frac
  | [] => (0, 0)
  | p :: ps =>
    match sumPoints ps with
    | (sx, sy) => (p.1.add sx, p.2.add sy)

/-- Modelled from the spec: the centroid of a set of points. -/
def centroid (ps : List (Frac × Frac)) : Frac × Frac :=
  match sumPoints ps with
  | (sx, sy) => (sx.divNat ps.length, sy.divNat ps.length)

/-- The four corner offsets for secondary labels, in the fixed priority
order top-left, top-right, bottom-left, bottom-right. -/
def cornerOffsets (g : KeyGeometry) : List (Frac × Frac) :=
  [ (Frac.sub 0 g.w.quarter, Frac.sub 0 g.h.quarter),
    (g.w.quarter, Frac.sub 0 g.h.quarter),
    (Frac.sub 0 g.w.quarter, g.h.quarter),
    (g.w.quarter, g.h.quarter) ]

/-- Modelled from the spec: the glyph of one key on one layer — a
(possibly rotated) rectangle at the key's position, the primary label
centered, and secondary labels at the corners in fixed priority order.
`yOff` is the vertical offset of the layer's sub-drawing in the stack. -/
def renderKeyGlyph (yOff : Frac) (g : KeyGeometry) (l : KeyLabelSpec) : List SvgElem :=
  SvgElem.rect g.x (g.y.add yOff) g.w g.h g.rot ::
  SvgElem.text g.x (g.y.add yOff) l.primary ::
  ((cornerOffsets g).zip l.secondary).map
    (fun p => SvgElem.text (g.x.add p.1.1) ((g.y.add yOff).add p.1.2) p.2)

/-- Pad a layer's labels with blanks up to the resolved key count. -/
def padTo (n : Nat) (ks : List KeyLabelSpec) : List KeyLabelSpec :=
  ks ++ List.replicate (n - ks.length) blankLabel

/-- Modelled from the spec: the overlay of one combo on one layer — its
marker at the centroid of the referenced key centers (or the explicit
override), a thin connector line from the marker to each referenced key
center, and the combo's label at the marker. -/
def renderCombo (geoms : List KeyGeometry) (yOff : Frac) (c : ComboSpec) : List SvgElem :=
  let centers := c.keys.map fun i => keyCenter (geoms.getD i.toNat ⟨0, 0, 1, 1, 0⟩)
  let pos := c.position.getD (centroid centers)
  centers.map (fun p => SvgElem.line pos.1 (pos.2.add yOff) p.1 (p.2.add yOff)) ++
  [SvgElem.comboMark pos.1 (pos.2.add yOff) c.label]

/-- Whether a combo applies to the layer named `nm`: explicit target layer
match, or no target layer (shown on every layer). -/
def comboOnLayer (nm : String) (c : ComboSpec) : Bool :=
  match c.targetLayer with
  | none => true
  | some t => decide (t = nm)

/-- Maximum of a list of integers, starting from 0. -/
def maxInt : List Int → Int
  | [] => 0
  | i :: is => max i (maxInt is)

/-- Modelled from the spec: a conservative integer height of the board in
key units, used to stack layer sub-drawings top-to-bottom: one more than
the largest integer part of any key's center ordinate. -/
def boardSpan (geoms : List KeyGeometry) : Int :=
  maxInt (geoms.map fun g => g.y.num) + 1

/-- Modelled from the spec: the sub-drawing of one layer — every key glyph
in geometry order (short layers padded with blank placeholders), then the
overlays of every combo applying to this layer; a layer with more label
entries than keys is malformed and raises `InvalidLayerError`. -/
def renderLayer (geoms : List KeyGeometry) (combos : List ComboSpec) (idx : Nat)
    (l : LayerSpec) : Except DrawError LayerGroup :=
  if geoms.length < l.keys.length then Except.error DrawError.invalidLayerError
  else
    let yOff : Frac := Frac.ofInt (idx * (boardSpan geoms + 1))
    Except.ok
      { name := l.name,
        elems :=
          ((geoms.zip (padTo geoms.length l.keys)).flatMap fun p => renderKeyGlyph yOff p.1 p.2) ++
          ((combos.filter (comboOnLayer l.name)).flatMap (renderCombo geoms yOff)) }

/-- Modelled from the spec: render the resolved geometries, layers and
combos into one vector document — combos are validated first (a combo
referencing an out-of-range key index aborts the render with
`InvalidComboError` and no partial document), then one grouped sub-drawing
per layer is produced in declaration order, layers stacked vertically. -/
def render (geoms : List KeyGeometry) (layers : List LayerSpec)
    (combos : List ComboSpec) : Except DrawError SvgDoc :=
  match validateCombos geoms.length combos with
  | Except.error e => Except.error e
  | Except.ok _ =>
    match exceptMap (fun p => renderLayer geoms combos p.1 p.2) layers.enum with
    | Except.error e => Except.error e
    | Except.ok groups =>
      Except.ok
        { width := Frac.ofInt (maxInt (geoms.map fun g => g.x.num) + 2),
          height := Frac.ofInt (layers.length * (boardSpan geoms + 1) + 1),
          groups := groups }

/-- Extract a string from a value. -/
def strOf : JVal → Option String
  | JVal.str s => some s
  | _ => none

/-- Extract an integer from an optional value. -/
def asNum? : Option JVal → Option Int
  | some (JVal.num i) => some i
  | _ => none

/-- Modelled from the spec: parse one key-label spec — a plain string is
the primary label, null is a blank placeholder, an object carries the
primary label ("label"), corner labels ("secondary") and style tag
("type"); anything else is a blank placeholder. -/
def parseLabel : JVal → KeyLabelSpec
  | JVal.str s => ⟨s, [], none⟩
  | JVal.obj d =>
    { primary := (asStr? (dictGet? d "label")).getD "",
      secondary :=
        match dictGet? d "secondary" with
        | some (JVal.arr vs) => vs.filterMap strOf
        | _ => [],
      style := asStr? (dictGet? d "type") }
  | _ => blankLabel

/-- Modelled from the spec: parse one layer — an object with a "name" and
a sequence of key labels under "keys"; non-sequence label data is
malformed and raises `InvalidLayerError`. -/
def parseLayer : JVal → Except DrawError LayerSpec
  | JVal.obj d =>
    match dictGet? d "keys" with
    | some (JVal.arr ks) =>
      Except.ok { name := (asStr? (dictGet? d "name")).getD "", keys := ks.map parseLabel }
    | _ => Except.error DrawError.invalidLayerError
  | _ => Except.error DrawError.invalidLayerError

/-- Modelled from the spec: parse the layer list; a non-sequence raises
`InvalidLayerError`. -/
def parseLayers : JVal → Except DrawError (List LayerSpec)
  | JVal.arr ls => exceptMap parseLayer ls
  | _ => Except.error DrawError.invalidLayerError

/-- Modelled from the spec: parse an optional explicit combo position
override — an object with numeric "x" and "y". -/
def parsePos : Option JVal → Option (Frac × Frac)
  | some (JVal.obj d) =>
    match asNum? (dictGet? d "x"), asNum? (dictGet? d "y") with
    | some x, some y => some (Frac.ofInt x, Frac.ofInt y)
    | _, _ => none
  | _ => none

/-- Modelled from the spec: parse one combo — an object with an integer
key-index sequence under "keys", a "label", an optional target "layer"
and an optional "position" override; a malformed key set raises
`InvalidComboError`. -/
def parseCombo : JVal → Except DrawError ComboSpec
  | JVal.obj d =>
    match dictGet? d "keys" with
    | some (JVal.arr ks) =>
      match exceptMap (fun v =>
          match v with
          | JVal.num i => Except.ok i
          | _ => Except.error DrawError.invalidComboError) ks with
      | Except.error e => Except.error e
      | Except.ok idxs =>
        Except.ok
          { keys := idxs,
            label := (asStr? (dictGet? d "label")).getD "",
            targetLayer := asStr? (dictGet? d "layer"),
            position := parsePos (dictGet? d "position") }
    | _ => Except.error DrawError.invalidComboError
  | _ => Except.error DrawError.invalidComboError

/-- Modelled from the spec: parse the combo list; a non-sequence raises
`InvalidComboError`. -/
def parseCombos : JVal → Except DrawError (List ComboSpec)
  | JVal.arr cs => exceptMap parseCombo cs
  | _ => Except.error DrawError.invalidComboError

/-- Modelled from the spec: parse one explicit key-geometry record — an
object with required numeric "x" and "y" (a record lacking x/y raises
`InvalidLayoutError`), width "w" and height "h" defaulting to one key
unit, rotation "r" defaulting to zero. -/
def parseKeyRecord : JVal → Except DrawError KeyGeometry
  | JVal.obj d =>
    match asNum? (dictGet? d "x"), asNum? (dictGet? d "y") with
    | some x, some y =>
      Except.ok
        { x := Frac.ofInt x, y := Frac.ofInt y,
          w := Frac.ofInt ((asNum? (dictGet? d "w")).getD 1),
          h := Frac.ofInt ((asNum? (dictGet? d "h")).getD 1),
          rot := Frac.ofInt ((asNum? (dictGet? d "r")).getD 0) }
    | _, _ => Except.error DrawError.invalidLayoutError
  | _ => Except.error DrawError.invalidLayoutError

/-- Modelled from the spec: parse ortho grid parameters from the
descriptor fields — "rows", "cols", "pitch_x" and "pitch_y" are required
(else `InvalidLayoutError`), "gap" defaults to zero, "stagger" is an
optional per-row offset list, "split_gap" is optional. -/
def parseOrthoParams (d : Dict) : Except DrawError OrthoParams :=
  match asNum? (dictGet? d "rows"), asNum? (dictGet? d "cols"),
        asNum? (dictGet? d "pitch_x"), asNum? (dictGet? d "pitch_y") with
  | some rows, some cols, some px, some py =>
    Except.ok
      { rows := rows.toNat, cols := cols.toNat,
        pitch_x := Frac.ofInt px, pitch_y := Frac.ofInt py,
        gap := Frac.ofInt ((asNum? (dictGet? d "gap")).getD 0),
        stagger :=
          match dictGet? d "stagger" with
          | some (JVal.arr vs) => (vs.filterMap fun v => asNum? (some v)).map Frac.ofInt
          | _ => [],
        split_gap := (asNum? (dictGet? d "split_gap")).map Frac.ofInt }
  | _, _, _, _ => Except.error DrawError.invalidLayoutError

/-- Modelled from the spec: resolve the physical-layout descriptor built
by `draw` into key geometries — tag "qmk" carries an explicit key list
under "layout", tag "ortho" carries grid parameters; any other tag is an
insufficient descriptor and raises `InvalidLayoutError`. -/
def parseDescriptor (d : Dict) : Except DrawError (List KeyGeometry) :=
  match asStr? (dictGet? d "ltype") with
  | some "qmk" =>
    match dictGet? d "layout" with
    | some (JVal.arr ks) => exceptMap parseKeyRecord ks
    | _ => Except.error DrawError.invalidLayoutError
  | some "ortho" =>
    match parseOrthoParams d with
    | Except.error e => Except.error e
    | Except.ok p => resolveOrtho p
  | _ => Except.error DrawError.invalidLayoutError

/-- Modelled from the spec: the rendering core invoked by `draw` as
`KeymapDrawer(layers=..., layout=..., combos=...).print_board()` — resolve
the descriptor, parse the layers and combos, and render. -/
def keymapDrawer (layersV : JVal) (descriptor : Dict) (combosV : JVal) :
    Except DrawError SvgDoc :=
  match parseDescriptor descriptor with
  | Except.error e => Except.error e
  | Except.ok geoms =>
    match parseLayers layersV with
    | Except.error e => Except.error e
    | Except.ok layers =>
      match parseCombos combosV with
      | Except.error e => Except.error e
      | Except.ok combos => render geoms layers combos

/-- `qmk_info["layouts"]`: a missing key is a Python `KeyError`, a
non-object value a `TypeError` on the subsequent access. -/
def getLayouts (info : Dict) : Except DrawError Dict :=
  match dictGet? info "layouts" with
  | some (JVal.obj d) => Except.ok d
  | some _ => Except.error (DrawError.typeError "layouts")
  | none => Except.error (DrawError.keyError "layouts")

/-- The layout-entry selection of `draw`: with no layout name,
`next(iter(qmk_info["layouts"].values()))` — the first entry of the
mapping (`StopIteration` when empty); with a name, `layouts[name]`
(`KeyError` when missing). -/
def selectLayoutEntry (layouts : Dict) (ql : Option String) : Except DrawError JVal :=
  match ql with
  | none =>
    match layouts.head? with
    | some kv => Except.ok kv.2
    | none => Except.error DrawError.stopIteration
  | some name =>
    match dictGet? layouts name with
    | some v => Except.ok v
    | none => Except.error (DrawError.keyError name)

/-- `entry["layout"]` on a selected layout entry. -/
def entryLayout : JVal → Except DrawError JVal
  | JVal.obj e =>
    match dictGet? e "layout" with
    | some v => Except.ok v
    | none => Except.error (DrawError.keyError "layout")
  | _ => Except.error (DrawError.typeError "layout entry")

/-- Lines 23–44 of `draw`: compute the effective keyboard and layout
names, and build the physical-layout descriptor handed to `KeymapDrawer` —
either `{"ltype": "qmk", "layout": <selected layout>}` from an info file,
or `{"ltype": "ortho", **yaml_data["layout"]}`; with no info source and no
"layout" field the assert fails. `lf` is the raw value of the keymap
YAML's "layout" key. -/
def resolveDescriptor (env : Env) (a : Args) (lf : Option JVal) :
    Except DrawError Dict :=
  if truthy (effQmkKeyboard a lf) || truthy a.qmk_info_json then
    match getLayouts (usedInfo env a lf) with
    | Except.error e => Except.error e
    | Except.ok layouts =>
      match selectLayoutEntry layouts (effQmkLayout a lf) with
      | Except.error e => Except.error e
      | Except.ok entry =>
        match entryLayout entry with
        | Except.error e => Except.error e
        | Except.ok lay => Except.ok [("ltype", JVal.str "qmk"), ("layout", lay)]
  else
    match lf with
    | some (JVal.obj d) => Except.ok (dictSplat [("ltype", JVal.str "ortho")] d)
    | some _ => Except.error (DrawError.typeError "layout")
    | none => Except.error (DrawError.assertionError layoutMsg)

/-- The outcome of a successful `draw` invocation: which info source was
consulted, the physical-layout descriptor handed to `KeymapDrawer`, and
the rendered document printed to the output stream. -/
structure DrawResult where
  source : InfoSource
  layout : Dict
  output : SvgDoc

/-- The `draw` function of `__main__.py`: load the keymap YAML (already
parsed here as `yd`), assert the "layers" field, build the physical-layout
descriptor, and run the rendering core on the layers, descriptor and
combos (`combos` defaulting to the empty list).  Any error aborts the call
with no output. -/
def draw (env : Env) (a : Args) (yd : Dict) : Except DrawError DrawResult :=
  if dictHas yd "layers" then
    match resolveDescriptor env a (dictGet? yd "layout") with
    | Except.error e => Except.error e
    | Except.ok d =>
      match keymapDrawer (dictGetD yd "layers" JVal.null) d
          (dictGetD yd "combos" (JVal.arr [])) with
      | Except.error e => Except.error e
      | Except.ok out =>
        Except.ok
          { source := infoSource a (dictGet? yd "layout"), layout := d, output := out }
  else Except.error (DrawError.assertionError layersMsg)

/-- The error of a `draw` invocation, when it fails. -/
def drawErr? (r : Except DrawError DrawResult) : Option DrawError :=
  match r with
  | Except.error e => some e
  | Except.ok _ => none

/-- Look up a field of the constructed layout descriptor of a successful
`draw` invocation. -/
def drawOkLayoutGet (env : Env) (a : Args) (yd : Dict) (k : String) :
    Option (Option JVal) :=
  match draw env a yd with
  | Except.ok r => some (dictGet? r.layout k)
  | Except.error _ => none

theorem dictGet?_set_self (d : Dict) (k : String) (v : JVal) :
    dictGet? (dictSet d k v) k = some v := by
  induction d with
  | nil => simp [dictSet, dictGet?]
  | cons kv rest ih =>
    obtain ⟨k₀, v₀⟩ := kv
    by_cases hk : k₀ = k
    · simp [dictSet, hk, dictGet?]
    · simp [dictSet, hk, dictGet?, ih]

theorem dictGet?_set_ne (d : Dict) (k k' : String) (v : JVal) (hne : k' ≠ k) :
    dictGet? (dictSet d k v) k' = dictGet? d k' := by
  have hne' : k ≠ k' := fun h => hne h.symm
  induction d with
  | nil => simp [dictSet, dictGet?, hne']
  | cons kv rest ih =>
    obtain ⟨k₀, v₀⟩ := kv
    by_cases hk : k₀ = k
    · subst hk
      simp [dictSet, dictGet?, hne']
    · simp [dictSet, hk, dictGet?, ih]

theorem dictGet?_splat_notin (base extra : Dict) (k : String)
    (h : dictGet? extra k = none) :
    dictGet? (dictSplat base extra) k = dictGet? base k := by
  induction extra generalizing base with
  | nil => rfl
  | cons kv rest ih =>
    obtain ⟨k₀, v₀⟩ := kv
    rw [dictGet?] at h
    by_cases hk : k₀ = k
    · rw [if_pos hk] at h
      exact absurd h (by simp)
    · rw [if_neg hk] at h
      show dictGet? (dictSplat (dictSet base k₀ v₀) rest) k = dictGet? base k
      rw [ih (dictSet base k₀ v₀) h, dictGet?_set_ne base k₀ k v₀ (fun hc => hk hc.symm)]

/-- C3 is decided by the first statement of `draw`: a keymap YAML without
a "layers" field fails the `assert "layers" in yaml_data` statement, so
the call aborts with that assertion error (not with `InvalidLayerError`)
before the renderer is constructed, and no output is produced. -/
theorem draw_missing_layers (env : Env) (a : Args) (yd : Dict)
    (h : dictHas yd "layers" = false) :
    draw env a yd = Except.error (DrawError.assertionError layersMsg) := by
  simp [draw, h]

/-- Witness for `draw_missing_layers` at the empty keymap YAML. -/
theorem draw_missing_layers_witness :
    dictHas [] "layers" = false ∧
    draw ⟨fun _ => [], fun _ => []⟩ ⟨none, none, none⟩ [] =
      Except.error (DrawError.assertionError layersMsg) :=
  ⟨by decide, draw_missing_layers ⟨fun _ => [], fun _ => []⟩ ⟨none, none, none⟩ [] (by decide)⟩

/-- C3 as stated is false: on a keymap YAML lacking "layers" the `draw`
of `__main__.py` fails with a Python assertion error, not with
`InvalidLayerError`. -/
theorem draw_missing_layers_counterexample :
    drawErr? (draw ⟨fun _ => [], fun _ => []⟩ ⟨none, none, none⟩ [("combos", JVal.arr [])]) =
      some (DrawError.assertionError layersMsg) ∧
    DrawError.assertionError layersMsg ≠ DrawError.invalidLayerError :=
  ⟨by decide, by decide⟩

/-- C2 (amended): with no truthy QMK keyboard name, no truthy info-file
path and no "layout" field, `draw` fails the `assert "layout" in
yaml_data` statement — an assertion error raised before any rendering,
with no output produced. -/
theorem draw_no_layout_source (env : Env) (a : Args) (yd : Dict)
    (hl : dictHas yd "layers" = true)
    (hk : truthy a.qmk_keyboard = false)
    (hj : truthy a.qmk_info_json = false)
    (hlay : dictGet? yd "layout" = none) :
    draw env a yd = Except.error (DrawError.assertionError layoutMsg) := by
  have hkb : truthy (effQmkKeyboard a none) = false := by
    unfold effQmkKeyboard pyOr
    rw [hk]
    rfl
  unfold draw
  rw [hl, hlay]
  unfold resolveDescriptor
  rw [hkb, hj]
  rfl

/-- Witness for `draw_no_layout_source` at a keymap YAML holding only an
empty layer list. -/
theorem draw_no_layout_source_witness :
    dictHas [("layers", JVal.arr [])] "layers" = true ∧
    draw ⟨fun _ => [], fun _ => []⟩ ⟨none, none, none⟩ [("layers", JVal.arr [])] =
      Except.error (DrawError.assertionError layoutMsg) :=
  ⟨by decide,
   draw_no_layout_source ⟨fun _ => [], fun _ => []⟩ ⟨none, none, none⟩
     [("layers", JVal.arr [])] (by decide) (by decide) (by decide) rfl⟩

/-- C2 as stated is false: with an insufficient physical descriptor the
`draw` of `__main__.py` fails with a Python assertion error, not with
`InvalidLayoutError`. -/
theorem draw_no_layout_source_counterexample :
    drawErr? (draw ⟨fun _ => [], fun _ => []⟩ ⟨none, none, none⟩ [("layers", JVal.arr [])]) =
      some (DrawError.assertionError layoutMsg) ∧
    DrawError.assertionError layoutMsg ≠ DrawError.invalidLayoutError :=
  ⟨by decide, by decide⟩

/-- C10: `yaml_data.get("combos", [])` makes a keymap YAML without a
"combos" field behave identically to the same YAML with "combos" set to
the empty list — the absence of combos is never an error. -/
theorem draw_combos_default (env : Env) (a : Args) (yd : Dict)
    (h : dictHas yd "combos" = false) :
    draw env a yd = draw env a (dictSet yd "combos" (JVal.arr [])) := by
  have hlayers : dictGet? (dictSet yd "combos" (JVal.arr [])) "layers" = dictGet? yd "layers" :=
    dictGet?_set_ne yd "combos" "layers" (JVal.arr []) (by decide)
  have hlayout : dictGet? (dictSet yd "combos" (JVal.arr [])) "layout" = dictGet? yd "layout" :=
    dictGet?_set_ne yd "combos" "layout" (JVal.arr []) (by decide)
  have hHas : dictHas (dictSet yd "combos" (JVal.arr [])) "layers" = dictHas yd "layers" := by
    simp [dictHas, hlayers]
  have hGetDlayers : dictGetD (dictSet yd "combos" (JVal.arr [])) "layers" JVal.null =
      dictGetD yd "layers" JVal.null := by
    simp [dictGetD, hlayers]
  have hcombos : dictGetD (dictSet yd "combos" (JVal.arr [])) "combos" (JVal.arr []) =
      dictGetD yd "combos" (JVal.arr []) := by
    rw [dictGetD, dictGetD, dictGet?_set_self]
    rw [dictHas] at h
    cases hc : dictGet? yd "combos" with
    | none => rfl
    | some v => rw [hc] at h; simp at h
  unfold draw
  rw [hHas, hlayout, hGetDlayers, hcombos]

/-- Witness for `draw_combos_default` at a concrete combo-free YAML. -/
theorem draw_combos_default_witness :
    dictHas [("layers", JVal.arr [])] "combos" = false ∧
    draw ⟨fun _ => [], fun _ => []⟩ ⟨none, none, none⟩ [("layers", JVal.arr [])] =
      draw ⟨fun _ => [], fun _ => []⟩ ⟨none, none, none⟩
        (dictSet [("layers", JVal.arr [])] "combos" (JVal.arr [])) :=
  ⟨by decide,
   draw_combos_default ⟨fun _ => [], fun _ => []⟩ ⟨none, none, none⟩
     [("layers", JVal.arr [])] (by decide)⟩

/-- C8 (amended): a truthy (non-empty) command-line value wins over the
corresponding keymap-YAML value for both `--qmk-keyboard` and
`--qmk-layout`; Python `or` consults the YAML value exactly when the
command-line value is absent or an empty string. -/
theorem cli_overrides_yaml (a : Args) (lf : Option JVal)
    (hk : truthy a.qmk_keyboard = true) (hl : truthy a.qmk_layout = true) :
    effQmkKeyboard a lf = a.qmk_keyboard ∧ effQmkLayout a lf = a.qmk_layout := by
  constructor
  · simp [effQmkKeyboard, pyOr, hk]
  · simp [effQmkLayout, pyOr, hl]

/-- Witness for `cli_overrides_yaml` with conflicting CLI and YAML
values. -/
theorem cli_overrides_yaml_witness :
    truthy (some "crkbd/rev1") = true ∧ truthy (some "LAYOUT_split_3x6_3") = true ∧
    (effQmkKeyboard ⟨none, some "crkbd/rev1", some "LAYOUT_split_3x6_3"⟩
        (some (JVal.obj [("qmk_keyboard", JVal.str "other"), ("qmk_layout", JVal.str "LAYOUT_x")])) =
      some "crkbd/rev1" ∧
     effQmkLayout ⟨none, some "crkbd/rev1", some "LAYOUT_split_3x6_3"⟩
        (some (JVal.obj [("qmk_keyboard", JVal.str "other"), ("qmk_layout", JVal.str "LAYOUT_x")])) =
      some "LAYOUT_split_3x6_3") :=
  ⟨by decide, by decide,
   cli_overrides_yaml ⟨none, some "crkbd/rev1", some "LAYOUT_split_3x6_3"⟩
     (some (JVal.obj [("qmk_keyboard", JVal.str "other"), ("qmk_layout", JVal.str "LAYOUT_x")]))
     (by decide) (by decide)⟩

/-- C8 as stated is false: a supplied-but-empty `--qmk-keyboard` value is
falsy in Python, so the YAML value is the one used even though a
command-line value was supplied. -/
theorem cli_overrides_yaml_counterexample :
    effQmkKeyboard ⟨none, some "", none⟩
        (some (JVal.obj [("qmk_keyboard", JVal.str "crkbd")])) = some "crkbd" ∧
    (some "crkbd" : Option String) ≠ some "" :=
  ⟨rfl, by decide⟩

/-- C9: when the keymap YAML names a QMK keyboard while a local info file
is supplied via `--qmk-info-json`, `draw` fetches the named keyboard
remotely and never reads the local info file — the whole outcome is
independent of the local-file collaborator. -/
theorem yaml_keyboard_beats_info_json (env₁ env₂ : Env) (a : Args) (yd : Dict)
    (name : String)
    (hrm : env₁.remote = env₂.remote)
    (h1 : a.qmk_keyboard = none)
    (h2 : asStr? (dictGet? (layoutObj (dictGet? yd "layout")) "qmk_keyboard") = some name)
    (h3 : name ≠ "")
    (_h4 : truthy a.qmk_info_json = true) :
    infoSource a (dictGet? yd "layout") = InfoSource.remote name ∧
    draw env₁ a yd = draw env₂ a yd := by
  have hkb : effQmkKeyboard a (dictGet? yd "layout") = some name := by
    unfold effQmkKeyboard pyOr
    rw [h1, h2]
    rfl
  have htr : truthy (some name) = true := by
    unfold truthy
    simp [h3]
  constructor
  · unfold infoSource
    rw [hkb, htr]
    rfl
  · have hui : usedInfo env₁ a (dictGet? yd "layout") = usedInfo env₂ a (dictGet? yd "layout") := by
      unfold usedInfo
      rw [hkb, htr, hrm]
      rfl
    have hres : resolveDescriptor env₁ a (dictGet? yd "layout") =
        resolveDescriptor env₂ a (dictGet? yd "layout") := by
      unfold resolveDescriptor
      rw [hui]
    unfold draw
    rw [hres]

/-- A remote QMK info dictionary with a single layout, used as sample
input. -/
def sampleInfo : Dict :=
  [("layouts", JVal.obj [("LAYOUT", JVal.obj [("layout", JVal.arr
     [JVal.obj [("x", JVal.num 0), ("y", JVal.num 0)],
      JVal.obj [("x", JVal.num 1), ("y", JVal.num 0)]])])])]

/-- An environment whose local info file holds distinguishable content. -/
def envLocalA : Env := ⟨fun _ => sampleInfo, fun _ => [("marker", JVal.num 1)]⟩

/-- An environment with the same remote collaborator and a different
local info file. -/
def envLocalB : Env := ⟨fun _ => sampleInfo, fun _ => []⟩

/-- A keymap YAML naming a QMK keyboard in its layout field. -/
def yamlWithKb : Dict :=
  [("layers", JVal.arr [JVal.obj [("name", JVal.str "L0"),
     ("keys", JVal.arr [JVal.str "A", JVal.str "B"])]]),
   ("layout", JVal.obj [("qmk_keyboard", JVal.str "crkbd")])]

/-- Witness for `yaml_keyboard_beats_info_json` on two environments that
differ only in the local info file. -/
theorem yaml_keyboard_beats_info_json_witness :
    ("crkbd" : String) ≠ "" ∧
    (infoSource ⟨some "local.json", none, none⟩ (dictGet? yamlWithKb "layout") =
       InfoSource.remote "crkbd" ∧
     draw envLocalA ⟨some "local.json", none, none⟩ yamlWithKb =
       draw envLocalB ⟨some "local.json", none, none⟩ yamlWithKb) :=
  ⟨by decide,
   yaml_keyboard_beats_info_json envLocalA envLocalB ⟨some "local.json", none, none⟩
     yamlWithKb "crkbd" rfl rfl rfl (by decide) (by decide)⟩

/-- C4: with a QMK info source in use and no layout name specified —
neither `--qmk-layout` nor `layout.qmk_layout` in the keymap YAML — the
descriptor is built from the first entry of the info file's "layouts"
mapping. -/
theorem first_layout_selected (env : Env) (a : Args) (yd : Dict)
    (k₀ : String) (e₀ : Dict) (rest : Dict) (lay : JVal)
    (huse : (truthy (effQmkKeyboard a (dictGet? yd "layout")) || truthy a.qmk_info_json) = true)
    (h1 : a.qmk_layout = none)
    (h2 : dictGet? (layoutObj (dictGet? yd "layout")) "qmk_layout" = none)
    (hlayouts : dictGet? (usedInfo env a (dictGet? yd "layout")) "layouts" =
      some (JVal.obj ((k₀, JVal.obj e₀) :: rest)))
    (hentry : dictGet? e₀ "layout" = some lay) :
    resolveDescriptor env a (dictGet? yd "layout") =
      Except.ok [("ltype", JVal.str "qmk"), ("layout", lay)] := by
  have hql : effQmkLayout a (dictGet? yd "layout") = none := by
    unfold effQmkLayout pyOr
    rw [h1, h2]
    rfl
  have hg : getLayouts (usedInfo env a (dictGet? yd "layout")) =
      Except.ok ((k₀, JVal.obj e₀) :: rest) := by
    unfold getLayouts
    rw [hlayouts]
  have hs : selectLayoutEntry ((k₀, JVal.obj e₀) :: rest)
      (effQmkLayout a (dictGet? yd "layout")) = Except.ok (JVal.obj e₀) := by
    rw [hql]
    rfl
  have he : entryLayout (JVal.obj e₀) = Except.ok lay := by
    simp only [entryLayout, hentry]
  unfold resolveDescriptor
  rw [huse]
  simp only [hg, hs, he, if_true]

/-- Witness for `first_layout_selected` on a concrete info file whose
"layouts" mapping has two entries. -/
theorem first_layout_selected_witness :
    (truthy (effQmkKeyboard ⟨some "info.json", none, none⟩ (dictGet? [("layers", JVal.arr [])] "layout")) ||
       truthy (⟨some "info.json", none, none⟩ : Args).qmk_info_json) = true ∧
    resolveDescriptor
        ⟨fun _ => [], fun _ =>
          [("layouts", JVal.obj
            [("LAYOUT_first", JVal.obj [("layout", JVal.arr [JVal.obj [("x", JVal.num 0), ("y", JVal.num 0)]])]),
             ("LAYOUT_second", JVal.obj [("layout", JVal.arr [])])])]⟩
        ⟨some "info.json", none, none⟩ (dictGet? [("layers", JVal.arr [])] "layout") =
      Except.ok [("ltype", JVal.str "qmk"),
        ("layout", JVal.arr [JVal.obj [("x", JVal.num 0), ("y", JVal.num 0)]])] :=
  ⟨by decide,
   first_layout_selected
     ⟨fun _ => [], fun _ =>
       [("layouts", JVal.obj
         [("LAYOUT_first", JVal.obj [("layout", JVal.arr [JVal.obj [("x", JVal.num 0), ("y", JVal.num 0)]])]),
          ("LAYOUT_second", JVal.obj [("layout", JVal.arr [])])])]⟩
     ⟨some "info.json", none, none⟩ [("layers", JVal.arr [])]
     "LAYOUT_first" [("layout", JVal.arr [JVal.obj [("x", JVal.num 0), ("y", JVal.num 0)]])]
     [("LAYOUT_second", JVal.obj [("layout", JVal.arr [])])]
     (JVal.arr [JVal.obj [("x", JVal.num 0), ("y", JVal.num 0)]])
     (by decide) rfl rfl rfl rfl⟩

theorem grid_length {α : Type} (m n : Nat) (f : Nat → Nat → α) :
    ((List.range m).flatMap fun r => (List.range n).map (f r)).length = m * n := by
  induction m with
  | zero => simp
  | succ m ih =>
    rw [List.range_succ, List.flatMap_append, List.length_append, ih]
    simp [Nat.succ_mul]

theorem grid_get {α : Type} (m n r c : Nat) (f : Nat → Nat → α)
    (hr : r < m) (hc : c < n) :
    ((List.range m).flatMap fun i => (List.range n).map (f i))[r * n + c]? = some (f r c) := by
  induction m with
  | zero => exact absurd hr (Nat.not_lt_zero r)
  | succ m ih =>
    rw [List.range_succ, List.flatMap_append]
    rcases Nat.lt_succ_iff_lt_or_eq.mp hr with h | h
    · have hidx : r * n + c < ((List.range m).flatMap fun i => (List.range n).map (f i)).length := by
        rw [grid_length]
        calc r * n + c < r * n + n := by omega
          _ = (r + 1) * n := (Nat.succ_mul r n).symm
          _ ≤ m * n := Nat.mul_le_mul_right n h
      rw [List.getElem?_append_left hidx]
      exact ih h
    · subst h
      have hlen : ((List.range r).flatMap fun i => (List.range n).map (f i)).length = r * n :=
        grid_length r n f
      rw [List.getElem?_append_right (by rw [hlen]; omega), hlen]
      have hsub : r * n + c - r * n = c := by omega
      rw [hsub]
      simp [List.getElem?_map, List.getElem?_range hc]

/-- C7: for every valid ortho descriptor (positive rows and cols), the
resolver produces exactly rows×cols key geometries, and the key at list
position `r * cols + c` is exactly the key of row `r`, column `c` — strict
row-major order. -/
theorem resolveOrtho_rowMajor (p : OrthoParams) (hr : 0 < p.rows) (hc : 0 < p.cols) :
    resolveOrtho p = Except.ok (orthoKeys p) ∧
    (orthoKeys p).length = p.rows * p.cols ∧
    ∀ r c, r < p.rows → c < p.cols →
      (orthoKeys p)[r * p.cols + c]? = some (orthoKey p r c) := by
  refine ⟨?_, ?_, ?_⟩
  · unfold resolveOrtho
    rw [if_neg (show ¬(p.rows = 0 ∨ p.cols = 0) by omega)]
  · exact grid_length p.rows p.cols (orthoKey p)
  · intro r c hrr hcc
    exact grid_get p.rows p.cols r c (orthoKey p) hrr hcc

/-- Witness for `resolveOrtho_rowMajor` on a 2×3 grid with unit pitch. -/
theorem resolveOrtho_rowMajor_witness :
    0 < (2 : Nat) ∧ 0 < (3 : Nat) ∧
    (resolveOrtho ⟨2, 3, Frac.ofInt 1, Frac.ofInt 1, 0, [], none⟩ =
       Except.ok (orthoKeys ⟨2, 3, Frac.ofInt 1, Frac.ofInt 1, 0, [], none⟩) ∧
     (orthoKeys ⟨2, 3, Frac.ofInt 1, Frac.ofInt 1, 0, [], none⟩).length = 2 * 3 ∧
     ∀ r c, r < 2 → c < 3 →
       (orthoKeys ⟨2, 3, Frac.ofInt 1, Frac.ofInt 1, 0, [], none⟩)[r * 3 + c]? =
         some (orthoKey ⟨2, 3, Frac.ofInt 1, Frac.ofInt 1, 0, [], none⟩ r c)) :=
  ⟨by decide, by decide,
   resolveOrtho_rowMajor ⟨2, 3, Frac.ofInt 1, Frac.ofInt 1, 0, [], none⟩ (by decide) (by decide)⟩

theorem validateCombo_bad (n : Nat) (c : ComboSpec) (i : Int)
    (hi : i ∈ c.keys) (hbad : badIdx n i = true) :
    validateCombo n c = Except.error DrawError.invalidComboError := by
  unfold validateCombo
  by_cases h2 : c.keys.length < 2
  · rw [if_pos h2]
  · rw [if_neg h2, if_pos]
    exact List.any_eq_true.mpr ⟨i, hi, hbad⟩

theorem validateCombo_error (n : Nat) (c : ComboSpec) (e : DrawError)
    (h : validateCombo n c = Except.error e) : e = DrawError.invalidComboError := by
  unfold validateCombo at h
  split at h
  · exact (Except.error.inj h).symm
  · split at h
    · exact (Except.error.inj h).symm
    · exact Except.noConfusion h

theorem validateCombos_mem_bad (n : Nat) (cs : List ComboSpec) (c : ComboSpec)
    (hc : c ∈ cs) (h : validateCombo n c = Except.error DrawError.invalidComboError) :
    validateCombos n cs = Except.error DrawError.invalidComboError := by
  induction cs with
  | nil => cases hc
  | cons a t ih =>
    rcases List.mem_cons.mp hc with h1 | h1
    · subst h1
      simp only [validateCombos, h]
    · cases ha : validateCombo n a with
      | error e =>
        simp only [validateCombos, ha]
        rw [validateCombo_error n a e ha]
      | ok u =>
        simp only [validateCombos, ha]
        exact ih h1

/-- C6: a combo whose key-index set contains a negative index, or an index
at least the number of resolved key geometries, makes the render abort
with `InvalidComboError` — the result is an error, so no partial document
is emitted. -/
theorem render_combo_out_of_range (geoms : List KeyGeometry) (layers : List LayerSpec)
    (combos : List ComboSpec) (c : ComboSpec) (i : Int)
    (hc : c ∈ combos) (hi : i ∈ c.keys)
    (hbad : i < 0 ∨ (geoms.length : Int) ≤ i) :
    render geoms layers combos = Except.error DrawError.invalidComboError := by
  have hb : badIdx geoms.length i = true := by
    unfold badIdx
    rcases hbad with h | h <;> simp [h]
  have hv := validateCombos_mem_bad geoms.length combos c hc
    (validateCombo_bad geoms.length c i hi hb)
  simp only [render, hv]

/-- Witness for `render_combo_out_of_range`: one key, one combo
referencing key index 5. -/
theorem render_combo_out_of_range_witness :
    (⟨[0, 5], "AB", none, none⟩ : ComboSpec) ∈ [(⟨[0, 5], "AB", none, none⟩ : ComboSpec)] ∧
    (5 : Int) ∈ [(0 : Int), 5] ∧
    ((5 : Int) < 0 ∨ (([(⟨0, 0, 1, 1, 0⟩ : KeyGeometry)].length : Int) ≤ 5)) ∧
    render [⟨0, 0, 1, 1, 0⟩] [] [⟨[0, 5], "AB", none, none⟩] =
      Except.error DrawError.invalidComboError :=
  ⟨by decide, by decide, Or.inr (by decide),
   render_combo_out_of_range [⟨0, 0, 1, 1, 0⟩] [] [⟨[0, 5], "AB", none, none⟩]
     ⟨[0, 5], "AB", none, none⟩ 5 (by decide) (by decide) (Or.inr (by decide))⟩

/-- C5: rendering is deterministic — `render` is a pure function of the
resolved geometries, layers and combos, with no other inputs, so two calls
on identical inputs produce the identical document, element ordering and
coordinates included. -/
theorem render_deterministic (g₁ g₂ : List KeyGeometry) (l₁ l₂ : List LayerSpec)
    (c₁ c₂ : List ComboSpec) (hg : g₁ = g₂) (hl : l₁ = l₂) (hc : c₁ = c₂) :
    render g₁ l₁ c₁ = render g₂ l₂ c₂ := by
  rw [hg, hl, hc]

/-- Witness for `render_deterministic` on a one-key, one-layer input. -/
theorem render_deterministic_witness :
    ([(⟨0, 0, 1, 1, 0⟩ : KeyGeometry)] = [⟨0, 0, 1, 1, 0⟩]) ∧
    render [⟨0, 0, 1, 1, 0⟩] [⟨"L0", [⟨"A", [], none⟩]⟩] [] =
      render [⟨0, 0, 1, 1, 0⟩] [⟨"L0", [⟨"A", [], none⟩]⟩] [] :=
  ⟨rfl, render_deterministic _ _ _ _ _ _ rfl rfl rfl⟩

theorem resolveDescriptor_shape (env : Env) (a : Args) (lf : Option JVal) (d : Dict)
    (h : resolveDescriptor env a lf = Except.ok d)
    (hno : dictGet? (layoutObj lf) "ltype" = none) :
    (dictGet? d "ltype" = some (JVal.str "qmk") ∧ dictHas d "layout" = true) ∨
    dictGet? d "ltype" = some (JVal.str "ortho") := by
  unfold resolveDescriptor at h
  split at h
  · split at h
    · exact Except.noConfusion h
    · split at h
      · exact Except.noConfusion h
      · split at h
        · exact Except.noConfusion h
        · left
          rw [← Except.ok.inj h]
          exact ⟨rfl, rfl⟩
  · split at h
    · rename_i d₀ hcond
      right
      rw [← Except.ok.inj h]
      have hno' : dictGet? d₀ "ltype" = none := hno
      rw [dictGet?_splat_notin [("ltype", JVal.str "ortho")] d₀ "ltype" hno']
      rfl
    · exact Except.noConfusion h
    · exact Except.noConfusion h

/-- C1 (amended): for every input accepted by `draw`, the physical-layout
descriptor handed to the renderer carries its tag in a field named
"ltype" (not "type"), and — provided the keymap YAML's layout mapping does
not itself override the "ltype" key — the tag value is either "qmk"
(carrying the selected key list under "layout") or "ortho" (carrying the
YAML layout parameters). -/
theorem draw_descriptor_tag (env : Env) (a : Args) (yd : Dict) (res : DrawResult)
    (hok : draw env a yd = Except.ok res)
    (hno : dictGet? (layoutObj (dictGet? yd "layout")) "ltype" = none) :
    (dictGet? res.layout "ltype" = some (JVal.str "qmk") ∧ dictHas res.layout "layout" = true) ∨
    dictGet? res.layout "ltype" = some (JVal.str "ortho") := by
  unfold draw at hok
  split at hok
  · split at hok
    · exact Except.noConfusion hok
    · rename_i d hres
      split at hok
      · exact Except.noConfusion hok
      · rename_i out hout
        have hd : res = ⟨infoSource a (dictGet? yd "layout"), d, out⟩ :=
          (Except.ok.inj hok).symm
        rw [hd]
        exact resolveDescriptor_shape env a (dictGet? yd "layout") d hres hno
  · exact Except.noConfusion hok

/-- The environment of the sample qmk-path run: the local info file holds
`sampleInfo`. -/
def qmkEnv : Env := ⟨fun _ => [], fun _ => sampleInfo⟩

/-- The arguments of the sample qmk-path run: only `--qmk-info-json`. -/
def qmkArgs : Args := ⟨some "info.json", none, none⟩

/-- A sample keymap YAML with one two-key layer and no layout field. -/
def sampleYaml : Dict :=
  [("layers", JVal.arr [JVal.obj [("name", JVal.str "L0"),
     ("keys", JVal.arr [JVal.str "A", JVal.str "B"])]])]

/-- C1 as stated is false: on an accepted input, the descriptor `draw`
constructs has no field named "type" at all — its tag field is "ltype",
holding "qmk". -/
theorem draw_descriptor_tag_counterexample :
    drawOkLayoutGet qmkEnv qmkArgs sampleYaml "type" = some none ∧
    drawOkLayoutGet qmkEnv qmkArgs sampleYaml "ltype" = some (some (JVal.str "qmk")) :=
  ⟨rfl, rfl⟩

/-- Witness for `draw_descriptor_tag` on the sample qmk-path run. -/
theorem draw_descriptor_tag_witness :
    dictGet? (layoutObj (dictGet? sampleYaml "layout")) "ltype" = none ∧
    ∃ res, draw qmkEnv qmkArgs sampleYaml = Except.ok res ∧
      ((dictGet? res.layout "ltype" = some (JVal.str "qmk") ∧
        dictHas res.layout "layout" = true) ∨
       dictGet? res.layout "ltype" = some (JVal.str "ortho")) := by
  refine ⟨rfl, ?_⟩
  cases hok : draw qmkEnv qmkArgs sampleYaml with
  | error e =>
    have hnone : drawErr? (draw qmkEnv qmkArgs sampleYaml) = none := rfl
    rw [hok] at hnone
    exact Option.noConfusion hnone
  | ok res =>
    exact ⟨res, rfl, draw_descriptor_tag qmkEnv qmkArgs sampleYaml res hok rfl⟩

end KeymapDrawer
